import Mathlib

/-!
Verification of the `circ` developer-tooling suite: the R1CS artifact
inspector (`examples/r1cs_inspect.rs`) and the ZoKratesCurly front-end
validator (`examples/zcheck_curly.rs`).

The Rust sources are shallowly embedded: variables are opaque indices
(`Var := Nat`), field elements appear only through their integer image
(`.i()`, modelled as `Int` with decimal rendering via `toString`), the
name map (`FxHashMap<Var, String>`) is an association list queried with
`List.lookup`, and each tool's `main` is a function from its inputs
(argument vector, file-system outcome, front-end outcome) to a process
result recording the exit code and the lines printed to stdout/stderr.
`println!("\nX")` is modelled as the two lines `""` and `"X"`.
-/

/-- Opaque R1CS variable identifier (`circ::target::r1cs::Var`). -/
abbrev Var := Nat

/-- A linear combination (`circ::target::r1cs::Lc`): a constant term plus a
sequence of (variable, coefficient) monomials in storage iteration order.
Coefficients are the integer images (`.i()`) of the field elements. -/
structure Lc where
  constant : Int
  monomials : List (Var × Int)
  deriving Repr, DecidableEq

/-- The R1CS structure reachable from `ProverData` in the inspector:
field modulus, variable sequence, constraint triples, and the partial
variable-name map. -/
structure R1cs where
  modulus : Nat
  vars : List Var
  constraints : List (Lc × Lc × Lc)
  names : List (Var × String)
  deriving Repr, DecidableEq

/-- Witness-computation metadata (`prover_data.precompute`). -/
structure Precompute where
  num_steps : Nat
  num_step_args : Nat
  deriving Repr, DecidableEq

/-- The deserialized artifact (`circ::target::r1cs::ProverData`). -/
structure ProverData where
  r1cs : R1cs
  precompute : Precompute
  deriving Repr, DecidableEq

/-- Result of one process invocation: exit code plus the lines printed to
standard output and standard error. -/
structure ProcResult where
  exitCode : Nat
  stdout : List String
  stderr : List String
  deriving Repr, DecidableEq

/-- One iteration of the monomial loop in `print_lc`: push the `" + "`
separator if the accumulator is nonempty, resolve the variable name with
fallback `"?"`, then append either the bare name (coefficient 1) or
`"<coeff>*<name>"`. -/
def lcStep (names : List (Var × String)) (s : String) (m : Var × Int) : String :=
  let s1 := if s = "" then s else s ++ " + "
  let var_name := (names.lookup m.1).getD "?"
  if m.2 = 1 then s1 ++ var_name else s1 ++ toString m.2 ++ "*" ++ var_name

/-- The accumulator string built by `print_lc`: decimal constant when
nonzero, then the monomials in iteration order, then `"0"` if still
empty. -/
def lcString (names : List (Var × String)) (lc : Lc) : String :=
  let s0 := if lc.constant ≠ 0 then toString lc.constant else ""
  let s1 := lc.monomials.foldl (lcStep names) s0
  if s1 = "" then "0" else s1

/-- The full line printed by `print_lc`: `"<label>: <value>"`. -/
def print_lc (label : String) (lc : Lc) (names : List (Var × String)) : String :=
  label ++ ": " ++ lcString names lc

/-- Model of `write!` into a `String` accumulator: the standard library's
`fmt::Write` implementation for `String` always returns `Ok`, so the
error branch carries no information beyond its (unit) tag. -/
def writeFmt (s t : String) : Except Unit String := Except.ok (s ++ t)

/-- Loop body of `print_lc` with every fallible `write!(...).unwrap()`
made explicit: `none` would mean a reached `unwrap` error branch. -/
def lcStepChecked (names : List (Var × String)) (s : String) (m : Var × Int) : Option String :=
  let s1 := if s = "" then s else s ++ " + "
  let var_name := (names.lookup m.1).getD "?"
  if m.2 = 1 then (writeFmt s1 var_name).toOption
  else (writeFmt s1 (toString m.2 ++ "*" ++ var_name)).toOption

/-- `print_lc`'s accumulator with explicit fallibility: each `write!` is
threaded through `Option`, so the result is `none` exactly when some
`unwrap` would panic. -/
def lcStringChecked (names : List (Var × String)) (lc : Lc) : Option String := do
  let s0 ← if lc.constant ≠ 0 then (writeFmt "" (toString lc.constant)).toOption
           else some ""
  let s1 ← lc.monomials.foldlM (lcStepChecked names) s0
  pure (if s1 = "" then "0" else s1)

/-- Rust's `{:3}` width specifier: decimal form, left-padded with spaces
to at least three characters. -/
def fmtWidth3 (n : Nat) : String :=
  let s := Nat.repr n
  String.mk (List.replicate (3 - s.length) ' ') ++ s

/-- One line of the Variables section:
`Var {:3} ({:?}): {name-or-<unnamed>}`. The `Debug` rendering of the
opaque variable identifier is the external library's and is passed in as
`dbg`. -/
def varLine (dbg : Var → String) (names : List (Var × String)) (i : Nat) (v : Var) : String :=
  "Var " ++ fmtWidth3 i ++ " (" ++ dbg v ++ "): " ++ (names.lookup v).getD "<unnamed>"

/-- The Variables section body: one line per variable, enumerated in the
artifact's native order. -/
def variableLines (dbg : Var → String) (r : R1cs) : List String :=
  r.vars.enum.map (fun p => varLine dbg r.names p.1 p.2)

/-- One constraint block: the blank line and index header from
`println!("\nConstraint {}:", i)`, then the three `print_lc` lines. -/
def constraintBlock (names : List (Var × String)) (i : Nat) (c : Lc × Lc × Lc) : List String :=
  ["", "Constraint " ++ toString i ++ ":",
   print_lc "  A" c.1 names, print_lc "  B" c.2.1 names, print_lc "  C" c.2.2 names]

/-- The Constraints section body: one block per constraint, enumerated in
the artifact's native order. -/
def constraintBlocks (r : R1cs) : List (List String) :=
  r.constraints.enum.map (fun p => constraintBlock r.names p.1 p.2)

/-- The report printed after a successful load, line by line, in the
order of the `println!` statements of `main` in `r1cs_inspect.rs`. -/
def report (dbg : Var → String) (pd : ProverData) : List String :=
  ["", "=== R1CS Summary ===",
   "Field modulus: " ++ toString pd.r1cs.modulus,
   "Number of variables: " ++ toString pd.r1cs.vars.length,
   "Number of constraints: " ++ toString pd.r1cs.constraints.length,
   "", "=== Variables ==="]
  ++ variableLines dbg pd.r1cs
  ++ ["", "=== Constraints ==="]
  ++ (constraintBlocks pd.r1cs).flatten
  ++ ["", "=== Witness Computation Info ===",
      "Number of computation steps: " ++ toString pd.precompute.num_steps,
      "Number of step arguments: " ++ toString pd.precompute.num_step_args]

/-- Outcome of `File::open` followed by `bincode::deserialize_from`:
the open can fail with an I/O error, the decode can fail, or a
`ProverData` value is produced. -/
inductive LoadResult where
  | openErr (msg : String)
  | deserErr
  | loaded (pd : ProverData)

/-- The two usage lines printed by the inspector on a wrong argument
count. -/
def usageLines (argv0 : String) : List String :=
  ["Usage: " ++ argv0 ++ " <prover_data_file>", "Example: " ++ argv0 ++ " P"]

/-- The inspector's `main`, as a function of the argument vector
(program name included) and the file-system/decoder outcome for each
path. An `Err` propagated out of `main` by `?` makes the runtime print
`Error: {err:?}` and exit 1; the `.expect` on deserialization panics,
printing its message and exiting 101. -/
def inspect_main (dbg : Var → String) (load : String → LoadResult)
    (argv : List String) : ProcResult :=
  if argv.length ≠ 2 then
    ⟨1, [], usageLines (argv.headD "")⟩
  else
    let path := argv.getD 1 ""
    let loadingLine := "Loading ProverData from: " ++ path
    match load path with
    | .openErr msg => ⟨1, [loadingLine], ["Error: " ++ msg]⟩
    | .deserErr => ⟨101, [loadingLine], ["Failed to deserialize ProverData"]⟩
    | .loaded pd => ⟨0, loadingLine :: report dbg pd, []⟩

/-- Payload of a panic intercepted by `catch_unwind` in
`zcheck_curly.rs`: an owned `String`, a `&'static str`, or anything
else. -/
inductive PanicPayload where
  | ownedString (s : String)
  | staticStr (s : String)
  | unknownPayload
  deriving Repr, DecidableEq

/-- The message the validator extracts from a panic payload: the string
itself when one can be downcast, else the fixed fallback. -/
def panicMessage : PanicPayload → String
  | .ownedString s => s
  | .staticStr s => s
  | .unknownPayload => "Unknown parsing error"

/-- Outcome of the wrapped `ZSharpCurlyFE::gen` call: a normal return
(the circuit value is discarded) or a panic with some payload. -/
inductive FrontEndOutcome where
  | returns
  | panics (p : PanicPayload)

/-- The validator's `main`, as a function of the front-end outcome. -/
def zcheck_main (outcome : FrontEndOutcome) : ProcResult :=
  match outcome with
  | .returns => ⟨0, ["✓ Program is valid"], []⟩
  | .panics p => ⟨1, [], ["Error: " ++ panicMessage p]⟩

/-- Sample name map: variable 0 is named `a`, variable 1 is unnamed. -/
def sampleNames : List (Var × String) := [(0, "a")]

/-- Sample artifact used to instantiate the universally quantified
theorems: modulus 17, variables `[0, 1]`, one constraint
`(2*a + 3, x1, 0)`. -/
def samplePd : ProverData :=
  ⟨⟨17, [0, 1], [(⟨3, [(0, 2)]⟩, ⟨0, [(1, 1)]⟩, ⟨0, []⟩)], sampleNames⟩, ⟨2, 5⟩⟩

/-- Sample variable-debug rendering standing in for the external
library's `Debug` instance. -/
def sampleDbg : Var → String := fun v => "x" ++ Nat.repr v

/- Helper lemmas about decimal rendering and string append. -/

theorem toDigitsCore_ne_nil (b f n : Nat) (ds : List Char) (h : ds ≠ []) :
    Nat.toDigitsCore b f n ds ≠ [] := by
  induction f generalizing n ds with
  | zero => simpa [Nat.toDigitsCore] using h
  | succ f ih =>
    rw [Nat.toDigitsCore]
    split
    · simp
    · exact ih _ _ (by simp)

theorem natRepr_ne_empty (n : Nat) : Nat.repr n ≠ "" := by
  have h : Nat.toDigits 10 n ≠ [] := by
    unfold Nat.toDigits
    rw [Nat.toDigitsCore]
    split
    · simp
    · exact toDigitsCore_ne_nil _ _ _ _ (by simp)
  intro hc
  apply h
  have h2 := congrArg String.data hc
  simpa [Nat.repr, List.asString] using h2

theorem intToString_ne_empty (i : Int) : toString i ≠ "" := by
  cases i with
  | ofNat m => exact natRepr_ne_empty m
  | negSucc m =>
    intro h
    have h2 := congrArg String.data h
    simp [toString, String.data_append] at h2

theorem stringAppend_eq_empty_iff (a b : String) : a ++ b = "" ↔ a = "" ∧ b = "" := by
  constructor
  · intro h
    have h2 : a.data ++ b.data = [] := by
      have h3 := congrArg String.data h
      simpa using h3
    rcases List.append_eq_nil.mp h2 with ⟨h3, h4⟩
    exact ⟨String.ext h3, String.ext h4⟩
  · rintro ⟨rfl, rfl⟩
    rfl

/- Helper lemmas about the monomial loop of `print_lc`. -/

theorem lcStep_extends (names : List (Var × String)) (s : String) (m : Var × Int) :
    ∃ t, lcStep names s m = s ++ t := by
  unfold lcStep
  by_cases hs : s = "" <;> by_cases hk : m.2 = 1 <;>
    simp [hs, hk, String.append_assoc]

theorem lcStep_nonempty_sep (names : List (Var × String)) (s : String) (m : Var × Int)
    (hs : s ≠ "") : ∃ u, lcStep names s m = s ++ (" + " ++ u) := by
  unfold lcStep
  by_cases hk : m.2 = 1 <;> simp [hs, hk, String.append_assoc] <;> exact ⟨_, rfl⟩

theorem foldl_lcStep_extends (names : List (Var × String)) (ms : List (Var × Int)) :
    ∀ s, ∃ t, ms.foldl (lcStep names) s = s ++ t := by
  induction ms with
  | nil => intro s; exact ⟨"", (String.append_empty s).symm⟩
  | cons m ms ih =>
    intro s
    obtain ⟨t1, h1⟩ := lcStep_extends names s m
    obtain ⟨t2, h2⟩ := ih (lcStep names s m)
    exact ⟨t1 ++ t2, by rw [List.foldl_cons, h2, h1, String.append_assoc]⟩

theorem lcStepChecked_eq (names : List (Var × String)) (s : String) (m : Var × Int) :
    lcStepChecked names s m = some (lcStep names s m) := by
  unfold lcStepChecked lcStep writeFmt
  by_cases hk : m.2 = 1 <;> simp [hk, Except.toOption, String.append_assoc]

theorem foldlM_lcStepChecked (names : List (Var × String)) (ms : List (Var × Int)) :
    ∀ s, ms.foldlM (lcStepChecked names) s = some (ms.foldl (lcStep names) s) := by
  induction ms with
  | nil => intro s; rfl
  | cons m ms ih =>
    intro s
    rw [List.foldlM_cons, lcStepChecked_eq]
    simpa using ih (lcStep names s m)

/- Claim theorems. -/

/-- Claim C1: for every loaded artifact the Variables section has exactly
one line per variable, in native order with its zero-based index, and the
Constraints section has exactly one block per constraint, each block being
the index header followed by exactly three rendered-LC lines labeled
`A`, `B`, `C` in that fixed order. -/
theorem report_variables_and_constraints_shape (dbg : Var → String) (pd : ProverData) :
    (variableLines dbg pd.r1cs).length = pd.r1cs.vars.length ∧
    (∀ (i : Nat) (v : Var), pd.r1cs.vars[i]? = some v →
      (variableLines dbg pd.r1cs)[i]? = some (varLine dbg pd.r1cs.names i v)) ∧
    (constraintBlocks pd.r1cs).length = pd.r1cs.constraints.length ∧
    (∀ (i : Nat) (a b c : Lc), pd.r1cs.constraints[i]? = some (a, b, c) →
      (constraintBlocks pd.r1cs)[i]? =
        some ["", "Constraint " ++ toString i ++ ":",
              print_lc "  A" a pd.r1cs.names, print_lc "  B" b pd.r1cs.names,
              print_lc "  C" c pd.r1cs.names]) := by
  refine ⟨?_, ?_, ?_, ?_⟩
  · simp [variableLines]
  · intro i v h
    simp [variableLines, List.getElem?_enum, h]
  · simp [constraintBlocks]
  · intro i a b c h
    simp [constraintBlocks, List.getElem?_enum, h, constraintBlock]

theorem report_variables_and_constraints_shape_witness :
    (variableLines sampleDbg samplePd.r1cs).length = 2 ∧
    (variableLines sampleDbg samplePd.r1cs)[1]? =
      some (varLine sampleDbg samplePd.r1cs.names 1 1) ∧
    (constraintBlocks samplePd.r1cs).length = 1 ∧
    (constraintBlocks samplePd.r1cs)[0]? =
      some ["", "Constraint " ++ toString (0 : Nat) ++ ":",
            print_lc "  A" ⟨3, [(0, 2)]⟩ samplePd.r1cs.names,
            print_lc "  B" ⟨0, [(1, 1)]⟩ samplePd.r1cs.names,
            print_lc "  C" ⟨0, []⟩ samplePd.r1cs.names] := by
  have h := report_variables_and_constraints_shape sampleDbg samplePd
  exact ⟨h.1, h.2.1 1 1 rfl, h.2.2.1, h.2.2.2 0 ⟨3, [(0, 2)]⟩ ⟨0, [(1, 1)]⟩ ⟨0, []⟩ rfl⟩

/-- Claim C2: a linear combination with no monomials renders as the
decimal form of its constant when the constant is nonzero, and as the
literal `"0"` when the constant is zero. -/
theorem lc_no_monomials_render (names : List (Var × String)) (c : Int) :
    lcString names ⟨c, []⟩ = if c = 0 then "0" else toString c := by
  by_cases h : c = 0
  · subst h; simp [lcString]
  · simp [lcString, h, intToString_ne_empty c]

/-- Claim C3: a monomial whose coefficient is 1 contributes only the
variable's resolved name (so a single named variable `a` with coefficient
1 and zero constant renders as `"a"`); any coefficient `k ≠ 1`
contributes `"k*a"` with the coefficient in decimal form. -/
theorem monomial_coefficient_render (names : List (Var × String)) (v : Var) (nm : String)
    (k : Int) (s : String) (h : names.lookup v = some nm) (hnm : nm ≠ "") :
    lcStep names s (v, k) =
      (if s = "" then s else s ++ " + ") ++
        (if k = 1 then nm else toString k ++ "*" ++ nm) ∧
    lcString names ⟨0, [(v, k)]⟩ = if k = 1 then nm else toString k ++ "*" ++ nm := by
  constructor
  · unfold lcStep
    by_cases hk : k = 1 <;> simp [h, hk, String.append_assoc]
  · by_cases hk : k = 1
    · simp [lcString, lcStep, h, hk, hnm]
    · simp [lcString, lcStep, h, hk, stringAppend_eq_empty_iff, intToString_ne_empty k]

theorem monomial_coefficient_render_witness :
    lcStep sampleNames "3" (0, 2) =
      (if "3" = "" then "3" else "3" ++ " + ") ++
        (if (2 : Int) = 1 then "a" else toString (2 : Int) ++ "*" ++ "a") ∧
    lcString sampleNames ⟨0, [(0, 2)]⟩ =
      if (2 : Int) = 1 then "a" else toString (2 : Int) ++ "*" ++ "a" :=
  monomial_coefficient_render sampleNames 0 "a" 2 "3" rfl (by decide)

/-- Claim C4: a variable with no entry in the name map renders as
`"<unnamed>"` on its Variables-section line, but as `"?"` inside a
rendered monomial. -/
theorem unnamed_variable_fallbacks (dbg : Var → String) (names : List (Var × String))
    (v : Var) (i : Nat) (s : String) (k : Int) (h : names.lookup v = none) :
    varLine dbg names i v = "Var " ++ fmtWidth3 i ++ " (" ++ dbg v ++ "): " ++ "<unnamed>" ∧
    lcStep names s (v, k) =
      (if s = "" then s else s ++ " + ") ++
        (if k = 1 then "?" else toString k ++ "*" ++ "?") := by
  constructor
  · simp [varLine, h]
  · unfold lcStep
    by_cases hk : k = 1 <;> simp [h, hk, String.append_assoc]

theorem unnamed_variable_fallbacks_witness :
    varLine sampleDbg sampleNames 0 1 =
      "Var " ++ fmtWidth3 0 ++ " (" ++ sampleDbg 1 ++ "): " ++ "<unnamed>" ∧
    lcStep sampleNames "" (1, 1) =
      (if "" = "" then "" else "" ++ " + ") ++
        (if (1 : Int) = 1 then "?" else toString (1 : Int) ++ "*" ++ "?") :=
  unnamed_variable_fallbacks sampleDbg sampleNames 1 0 "" 1 rfl

/-- Claim C8: once the artifact is loaded, rendering a linear combination
is total: every `write!(...).unwrap()` in `print_lc` is unreachable in
its error branch, for all constants, monomial sequences and name maps, so
the explicitly fallible rendering always succeeds with the rendered
string. -/
theorem render_stage_total (names : List (Var × String)) (lc : Lc) :
    lcStringChecked names lc = some (lcString names lc) := by
  unfold lcStringChecked lcString
  by_cases h : lc.constant = 0 <;>
    simp [h, writeFmt, Except.toOption, foldlM_lcStepChecked names lc.monomials]

/-- Claim C9: a linear combination with nonzero constant and at least one
monomial always renders with the constant's decimal form first, followed
by `" + "`: a monomial term can never appear before the constant. -/
theorem constant_renders_before_monomials (names : List (Var × String)) (lc : Lc)
    (hc : lc.constant ≠ 0) (hm : lc.monomials ≠ []) :
    ∃ t, lcString names lc = toString lc.constant ++ (" + " ++ t) := by
  obtain ⟨m, ms, hms⟩ := List.exists_cons_of_ne_nil hm
  obtain ⟨u, hu⟩ :=
    lcStep_nonempty_sep names (toString lc.constant) m (intToString_ne_empty _)
  obtain ⟨t2, ht2⟩ := foldl_lcStep_extends names ms (lcStep names (toString lc.constant) m)
  refine ⟨u ++ t2, ?_⟩
  have hval : lc.monomials.foldl (lcStep names) (toString lc.constant)
      = toString lc.constant ++ (" + " ++ (u ++ t2)) := by
    rw [hms, List.foldl_cons, ht2, hu, String.append_assoc, String.append_assoc]
  have hne : toString lc.constant ++ (" + " ++ (u ++ t2)) ≠ "" := by
    intro hcon
    exact intToString_ne_empty lc.constant ((stringAppend_eq_empty_iff _ _).mp hcon).1
  simp only [lcString]
  rw [if_pos hc, hval, if_neg hne]

theorem constant_renders_before_monomials_witness :
    ∃ t, lcString sampleNames ⟨3, [(0, 2)]⟩ = toString (3 : Int) ++ (" + " ++ t) :=
  constant_renders_before_monomials sampleNames ⟨3, [(0, 2)]⟩ (by decide) (by decide)

/-- Claim C5: when the wrapped front-end call aborts, the validator exits
nonzero and prints the abort's string payload (owned `String` or static
`&str`) to the error stream as the message of its single `Error:` line;
with no extractable string it prints the fixed fallback
`Unknown parsing error` instead. -/
theorem zcheck_abort_reporting (p : PanicPayload) :
    (zcheck_main (.panics p)).exitCode ≠ 0 ∧
    (∀ s, p = .ownedString s → (zcheck_main (.panics p)).stderr = ["Error: " ++ s]) ∧
    (∀ s, p = .staticStr s → (zcheck_main (.panics p)).stderr = ["Error: " ++ s]) ∧
    (p = .unknownPayload →
      (zcheck_main (.panics p)).stderr = ["Error: " ++ "Unknown parsing error"]) := by
  refine ⟨by simp [zcheck_main], ?_, ?_, ?_⟩
  · intro s h; subst h; rfl
  · intro s h; subst h; rfl
  · intro h; subst h; rfl

theorem zcheck_abort_reporting_witness :
    (zcheck_main (.panics (.ownedString "boom"))).exitCode ≠ 0 ∧
    (zcheck_main (.panics (.ownedString "boom"))).stderr = ["Error: " ++ "boom"] := by
  have h := zcheck_abort_reporting (.ownedString "boom")
  exact ⟨h.1, h.2.1 "boom" rfl⟩

/-- Claim C6: the inspector invoked with an argument count other than one
path exits nonzero after printing the usage message, and invoked with one
path that fails to open it exits nonzero with only the loading notice on
standard output — no report section. -/
theorem inspect_cli_failures (dbg : Var → String) (load : String → LoadResult)
    (argv : List String) :
    (argv.length ≠ 2 →
      inspect_main dbg load argv = ⟨1, [], usageLines (argv.headD "")⟩) ∧
    (∀ prog path msg, load path = .openErr msg →
      inspect_main dbg load [prog, path] =
        ⟨1, ["Loading ProverData from: " ++ path], ["Error: " ++ msg]⟩) := by
  constructor
  · intro h
    simp [inspect_main, h]
  · intro prog path msg h
    simp [inspect_main, h]

theorem inspect_cli_failures_witness :
    inspect_main sampleDbg (fun _ => LoadResult.openErr "No such file") ["prog"] =
      ⟨1, [], usageLines (["prog"].headD "")⟩ ∧
    inspect_main sampleDbg (fun _ => LoadResult.openErr "No such file") ["prog", "P"] =
      ⟨1, ["Loading ProverData from: " ++ "P"], ["Error: " ++ "No such file"]⟩ := by
  have h := inspect_cli_failures sampleDbg (fun _ => LoadResult.openErr "No such file") ["prog"]
  exact ⟨h.1 (by decide), h.2 "prog" "P" "No such file" rfl⟩

/-- Claim C7, as stated, is refuted: the inspector's wrong-argument-count
failure path prints two lines to the error stream (the usage line and the
example line), not a single-line explanation. -/
theorem usage_error_two_lines_cex :
    (inspect_main sampleDbg (fun _ => LoadResult.deserErr) ["prog"]).exitCode ≠ 0 ∧
    ¬ ((inspect_main sampleDbg (fun _ => LoadResult.deserErr) ["prog"]).stderr.length = 1) := by
  constructor
  · simp [inspect_main]
  · simp [inspect_main, usageLines]

/-- Claim C7 (amended): every failure path of either tool exits nonzero
and prints a short human-readable explanation of at most two lines — the
inspector's wrong-argument-count path prints exactly two (usage and
example), every other failure path exactly one. -/
theorem failure_messages_at_most_two_lines (dbg : Var → String)
    (load : String → LoadResult) (argv : List String) (prog path : String)
    (p : PanicPayload) :
    (argv.length ≠ 2 →
      (inspect_main dbg load argv).exitCode ≠ 0 ∧
      (inspect_main dbg load argv).stderr.length = 2) ∧
    (∀ msg, load path = .openErr msg →
      (inspect_main dbg load [prog, path]).exitCode ≠ 0 ∧
      (inspect_main dbg load [prog, path]).stderr.length = 1) ∧
    (load path = .deserErr →
      (inspect_main dbg load [prog, path]).exitCode ≠ 0 ∧
      (inspect_main dbg load [prog, path]).stderr.length = 1) ∧
    ((zcheck_main (.panics p)).exitCode ≠ 0 ∧
      (zcheck_main (.panics p)).stderr.length = 1) := by
  refine ⟨?_, ?_, ?_, ?_⟩
  · intro h
    simp [inspect_main, h, usageLines]
  · intro msg h
    simp [inspect_main, h]
  · intro h
    simp [inspect_main, h]
  · simp [zcheck_main]

theorem failure_messages_at_most_two_lines_witness :
    ((inspect_main sampleDbg (fun _ => LoadResult.deserErr) ["prog"]).exitCode ≠ 0 ∧
     (inspect_main sampleDbg (fun _ => LoadResult.deserErr) ["prog"]).stderr.length = 2) ∧
    ((inspect_main sampleDbg (fun _ => LoadResult.openErr "no file") ["prog", "P"]).exitCode ≠ 0 ∧
     (inspect_main sampleDbg (fun _ => LoadResult.openErr "no file") ["prog", "P"]).stderr.length = 1) ∧
    ((inspect_main sampleDbg (fun _ => LoadResult.deserErr) ["prog", "P"]).exitCode ≠ 0 ∧
     (inspect_main sampleDbg (fun _ => LoadResult.deserErr) ["prog", "P"]).stderr.length = 1) ∧
    ((zcheck_main (.panics .unknownPayload)).exitCode ≠ 0 ∧
     (zcheck_main (.panics .unknownPayload)).stderr.length = 1) := by
  refine ⟨(failure_messages_at_most_two_lines sampleDbg (fun _ => LoadResult.deserErr)
            ["prog"] "prog" "P" .unknownPayload).1 (by decide),
          (failure_messages_at_most_two_lines sampleDbg (fun _ => LoadResult.openErr "no file")
            ["prog"] "prog" "P" .unknownPayload).2.1 "no file" rfl,
          (failure_messages_at_most_two_lines sampleDbg (fun _ => LoadResult.deserErr)
            ["prog"] "prog" "P" .unknownPayload).2.2.1 rfl,
          (failure_messages_at_most_two_lines sampleDbg (fun _ => LoadResult.deserErr)
            ["prog"] "prog" "P" .unknownPayload).2.2.2⟩

/-- Claim C10: with exactly one path argument the loading notice is the
first line of standard output in every case; when the open or the
deserialization fails it is the only stdout line, hence printed exactly
once. -/
theorem loading_notice_first_and_once (dbg : Var → String) (load : String → LoadResult)
    (prog path : String) :
    (∀ msg, load path = .openErr msg →
      (inspect_main dbg load [prog, path]).stdout = ["Loading ProverData from: " ++ path] ∧
      (inspect_main dbg load [prog, path]).stdout.count
        ("Loading ProverData from: " ++ path) = 1) ∧
    (load path = .deserErr →
      (inspect_main dbg load [prog, path]).stdout = ["Loading ProverData from: " ++ path] ∧
      (inspect_main dbg load [prog, path]).stdout.count
        ("Loading ProverData from: " ++ path) = 1) ∧
    (∀ pd, load path = .loaded pd →
      (inspect_main dbg load [prog, path]).stdout.head? =
        some ("Loading ProverData from: " ++ path)) := by
  refine ⟨?_, ?_, ?_⟩
  · intro msg h
    simp [inspect_main, h]
  · intro h
    simp [inspect_main, h]
  · intro pd h
    simp [inspect_main, h]

theorem loading_notice_first_and_once_witness :
    ((inspect_main sampleDbg (fun _ => LoadResult.openErr "e") ["prog", "P"]).stdout =
      ["Loading ProverData from: " ++ "P"] ∧
     (inspect_main sampleDbg (fun _ => LoadResult.openErr "e") ["prog", "P"]).stdout.count
      ("Loading ProverData from: " ++ "P") = 1) ∧
    (inspect_main sampleDbg (fun _ => LoadResult.loaded samplePd) ["prog", "P"]).stdout.head? =
      some ("Loading ProverData from: " ++ "P") := by
  refine ⟨(loading_notice_first_and_once sampleDbg (fun _ => LoadResult.openErr "e")
            "prog" "P").1 "e" rfl,
          (loading_notice_first_and_once sampleDbg (fun _ => LoadResult.loaded samplePd)
            "prog" "P").2.2 samplePd rfl⟩
